import Mathlib

/-!
Shallow embedding of the e-commerce backend (`src/main.py`, `src/schemas.py`):
pydantic schema validation, the admin authorization gate, catalog list/create
handlers, order creation and the order status update handler.  The document
store (`database.py`, not part of the sources) is modelled from the spec's
Document Store Adapter contract.  Request bodies are modelled with a
three-state field type (absent / null / value), matching how pydantic treats
missing fields, explicit `null`s and supplied values differently.
-/

-- Equality of `Except` results is decidable when both components are.
deriving instance DecidableEq for Except

namespace Shop

/-- A JSON body field: absent from the object, present as `null`, or a value.
pydantic distinguishes absent (default applies) from an explicit `null`. -/
inductive RawField (α : Type) where
  | absent
  | null
  | val (a : α)
deriving DecidableEq, Repr

/-- Errors surfaced to the HTTP caller: FastAPI request-body validation errors
(HTTP 422 with field detail) and explicit `HTTPException(status, detail)`. -/
inductive Err where
  | validation (detail : String)
  | http (status : Nat) (detail : String)
deriving DecidableEq, Repr

/-- Client (4xx-class) errors: body validation errors and 4xx HTTPExceptions. -/
def Err.isClient : Err → Bool
  | .validation _ => true
  | .http s _ => 400 ≤ s && s < 500

/-- pydantic: a required field errors when absent or `null`. -/
def requireField {α : Type} (name : String) : RawField α → Except String α
  | .absent => .error (name ++ ": field required")
  | .null => .error (name ++ ": none is not an allowed value")
  | .val a => .ok a

/-- pydantic: an `Optional[...] = None` field maps absent and `null` to `None`. -/
def optField {α : Type} : RawField α → Option α
  | .val a => some a
  | _ => none

/- ----------------------- schemas.py ----------------------- -/

/-- Schema `class ButcherItem(BaseModel)` from `schemas.py`. -/
structure ButcherItem where
  title : String
  description : Option String
  price_per_kg : ℚ
  available : Bool
  image : Option String
deriving DecidableEq, Repr

/-- pydantic: `available: bool = True` — absence takes the default, an
explicit `null` is rejected, a supplied Bool is kept. -/
def availableField : RawField Bool → Except String Bool
  | .absent => .ok true
  | .null => .error "available: none is not an allowed value"
  | .val b => .ok b

/-- pydantic validation of a ButcherItem body: `title: str` (required),
`description: Optional[str] = None`, `price_per_kg: float = Field(..., ge=0)`,
`available: bool = True`, `image: Optional[str] = None`. -/
def ButcherItem.validate (title description : RawField String)
    (price_per_kg : RawField ℚ) (available : RawField Bool)
    (image : RawField String) : Except String ButcherItem :=
  requireField "title" title >>= fun t =>
  requireField "price_per_kg" price_per_kg >>= fun p =>
  (if p < 0 then .error "price_per_kg: ensure this value is greater than or equal to 0"
   else .ok ()) >>= fun _ =>
  availableField available >>= fun a =>
  .ok ⟨t, optField description, p, a, optField image⟩

/-- Schema `class GroceryItem(BaseModel)` from `schemas.py`: same shape as
`ButcherItem` with `price` in place of `price_per_kg`. -/
structure GroceryItem where
  title : String
  description : Option String
  price : ℚ
  available : Bool
  image : Option String
deriving DecidableEq, Repr

/-- pydantic validation of a GroceryItem body, mirroring `ButcherItem.validate`
with `price: float = Field(..., ge=0)`. -/
def GroceryItem.validate (title description : RawField String)
    (price : RawField ℚ) (available : RawField Bool)
    (image : RawField String) : Except String GroceryItem :=
  requireField "title" title >>= fun t =>
  requireField "price" price >>= fun p =>
  (if p < 0 then .error "price: ensure this value is greater than or equal to 0"
   else .ok ()) >>= fun _ =>
  availableField available >>= fun a =>
  .ok ⟨t, optField description, p, a, optField image⟩

/-- Schema `class OrderItem(BaseModel)` from `schemas.py`. -/
structure OrderItem where
  type : String
  item_id : String
  title : String
  unit_price : ℚ
  quantity : Option ℤ
  weight_kg : Option ℚ
  subtotal : ℚ
deriving DecidableEq, Repr

/-- An OrderItem line as it appears in a request body. -/
structure RawOrderItem where
  type : RawField String
  item_id : RawField String
  title : RawField String
  unit_price : RawField ℚ
  quantity : RawField ℤ
  weight_kg : RawField ℚ
  subtotal : RawField ℚ
deriving DecidableEq, Repr

/-- pydantic validation of an OrderItem line: `type: Literal["butcher","grocery"]`,
`item_id: str`, `title: str`, `unit_price: float ge=0`,
`quantity: Optional[int] = Field(None, ge=1)`,
`weight_kg: Optional[float] = Field(None, ge=0.1)`, `subtotal: float ge=0`. -/
def OrderItem.validate (r : RawOrderItem) : Except String OrderItem :=
  requireField "type" r.type >>= fun ty =>
  (if ty = "butcher" ∨ ty = "grocery" then .ok ()
   else .error "type: unexpected value") >>= fun _ =>
  requireField "item_id" r.item_id >>= fun iid =>
  requireField "title" r.title >>= fun t =>
  requireField "unit_price" r.unit_price >>= fun up =>
  (if up < 0 then .error "unit_price: ensure this value is greater than or equal to 0"
   else .ok ()) >>= fun _ =>
  (match optField r.quantity with
   | some n => if n < 1 then .error "quantity: ensure this value is greater than or equal to 1" else .ok ()
   | none => .ok ()) >>= fun _ =>
  (match optField r.weight_kg with
   | some x => if x < (1 : ℚ)/10 then .error "weight_kg: ensure this value is greater than or equal to 0.1" else .ok ()
   | none => .ok ()) >>= fun _ =>
  requireField "subtotal" r.subtotal >>= fun sub =>
  (if sub < 0 then .error "subtotal: ensure this value is greater than or equal to 0"
   else .ok ()) >>= fun _ =>
  .ok ⟨ty, iid, t, up, optField r.quantity, optField r.weight_kg, sub⟩

/-- The four order status labels of
`status: Literal["Pending", "Confirmed", "Ready for Pickup", "Delivered"]`. -/
def validStatuses : List String :=
  ["Pending", "Confirmed", "Ready for Pickup", "Delivered"]

/-- The payment-method whitelist of
`payment_method: Literal["Cash on Delivery", "Card on Delivery"]`. -/
def paymentWhitelist : List String :=
  ["Cash on Delivery", "Card on Delivery"]

/-- pydantic: `status: Literal[...] = "Pending"` — absence takes the default,
an explicit `null` is rejected, a supplied label must be one of the four. -/
def statusField : RawField String → Except String String
  | .absent => .ok "Pending"
  | .null => .error "status: none is not an allowed value"
  | .val s => if s ∈ validStatuses then .ok s else .error "status: unexpected value"

/-- Schema `class Order(BaseModel)` from `schemas.py`. -/
structure Order where
  customer_name : String
  phone : String
  address : String
  payment_method : String
  status : String
  items : List OrderItem
  total : ℚ
deriving DecidableEq, Repr

/-- An Order as it appears in a request body. -/
structure RawOrder where
  customer_name : RawField String
  phone : RawField String
  address : RawField String
  payment_method : RawField String
  status : RawField String
  items : RawField (List RawOrderItem)
  total : RawField ℚ
deriving DecidableEq, Repr

/-- pydantic validation of an Order body: free-text strings for
`customer_name`, `phone`, `address`; `payment_method` a two-value `Literal`;
`status` a four-value `Literal` defaulting to `"Pending"` when the field is
absent; `items: List[OrderItem]`; `total: float ge=0`. -/
def Order.validate (r : RawOrder) : Except String Order :=
  requireField "customer_name" r.customer_name >>= fun cn =>
  requireField "phone" r.phone >>= fun ph =>
  requireField "address" r.address >>= fun ad =>
  requireField "payment_method" r.payment_method >>= fun pm =>
  (if pm ∈ paymentWhitelist then .ok ()
   else .error "payment_method: unexpected value") >>= fun _ =>
  statusField r.status >>= fun st =>
  requireField "items" r.items >>= fun rawItems =>
  rawItems.mapM OrderItem.validate >>= fun its =>
  requireField "total" r.total >>= fun tot =>
  (if tot < 0 then .error "total: ensure this value is greater than or equal to 0"
   else .ok ()) >>= fun _ =>
  .ok ⟨cn, ph, ad, pm, st, its, tot⟩

/- ----------------------- document store ----------------------- -/

/-- The `updated_at` marker of a stored order: absent (never updated) or
written as `null` (the Mongo update sets `"updated_at": None`). -/
inductive Marker where
  | absent
  | nullMark
deriving DecidableEq, Repr

/-- A stored butcher-item document: the schema fields (each possibly missing
or `null`, collapsed to `none` as `d.get(k)` does), the store-assigned `_id`,
and any extra fields an arbitrary writer may have stored. -/
structure ButcherDoc where
  id : String
  title : Option String
  description : Option String
  price_per_kg : Option ℚ
  available : Option Bool
  image : Option String
  extras : List (String × String)
deriving DecidableEq, Repr

/-- A stored grocery-item document, mirroring `ButcherDoc` with `price`. -/
structure GroceryDoc where
  id : String
  title : Option String
  description : Option String
  price : Option ℚ
  available : Option Bool
  image : Option String
  extras : List (String × String)
deriving DecidableEq, Repr

/-- A stored order document: the `Order` fields, the store-assigned `_id`,
and the `updated_at` marker touched by the status-update handler. -/
structure OrderDoc where
  id : String
  customer_name : String
  phone : String
  address : String
  payment_method : String
  status : String
  items : List OrderItem
  total : ℚ
  updated_at : Marker
deriving DecidableEq, Repr

/-- The Mongo update applied to a matching order document:
`$set {"status": s, "updated_at": None}`. -/
def setStatusDoc (s : String) (d : OrderDoc) : OrderDoc :=
  { d with status := s, updated_at := .nullMark }

/-- Modelled from the spec: `database.py` (the Document Store Adapter, spec
§4.1) is not among the sources.  The store holds one document sequence per
collection in insertion order; `create` appends one document and returns a
fresh store-assigned opaque id; `list` returns the full collection. -/
structure Store where
  butcheritem : List ButcherDoc
  groceryitem : List GroceryDoc
  order : List OrderDoc
  nextId : Nat
deriving DecidableEq, Repr

/-- The opaque id the store assigns to the `n`-th created document: a 24-digit
string (decimal digits, hence also a valid 24-hex-char ObjectId string). -/
def mkObjectId (n : Nat) : String :=
  let s := Nat.repr n
  String.mk (List.replicate (24 - s.length) '0') ++ s

/-- Validity test of `bson.ObjectId(order_id)`: it accepts exactly
24-hex-character strings;
anything else raises `InvalidId`. -/
def isValidObjectId (s : String) : Bool :=
  s.length == 24 && s.toList.all fun c =>
    c.isDigit || ('a' ≤ c && c ≤ 'f') || ('A' ≤ c && c ≤ 'F')

/-- Modelled from the spec: `create_document("butcheritem", item)` persists
one new document whose visible fields are the validated item's fields, and
returns the store-assigned id. -/
def createButcherDoc (st : Store) (item : ButcherItem) : Store × String :=
  let i := mkObjectId st.nextId
  ({ st with
      butcheritem := st.butcheritem ++
        [⟨i, some item.title, item.description, some item.price_per_kg,
          some item.available, item.image, []⟩],
      nextId := st.nextId + 1 }, i)

/-- Modelled from the spec: `create_document("groceryitem", item)`. -/
def createGroceryDoc (st : Store) (item : GroceryItem) : Store × String :=
  let i := mkObjectId st.nextId
  ({ st with
      groceryitem := st.groceryitem ++
        [⟨i, some item.title, item.description, some item.price,
          some item.available, item.image, []⟩],
      nextId := st.nextId + 1 }, i)

/-- Modelled from the spec: `create_document("order", order)`.  `updated_at`
is not part of a freshly created order document. -/
def createOrderDoc (st : Store) (o : Order) : Store × String :=
  let i := mkObjectId st.nextId
  ({ st with
      order := st.order ++
        [⟨i, o.customer_name, o.phone, o.address, o.payment_method,
          o.status, o.items, o.total, .absent⟩],
      nextId := st.nextId + 1 }, i)

/- ----------------------- main.py ----------------------- -/

/-- Process environment: `ADMIN_PASSWORD` (optional) and whether the Mongo
connection was established (`db is not None`). -/
structure Env where
  ADMIN_PASSWORD : Option String
  dbAvailable : Bool
deriving DecidableEq, Repr

/-- Lookup `os.getenv("ADMIN_PASSWORD", "admin123")`: the configured admin secret,
with the fixed fallback when unconfigured. -/
def adminPw (env : Env) : String :=
  env.ADMIN_PASSWORD.getD "admin123"

/-- Gate `verify_admin(password)` from `main.py`: raises
`HTTPException(401, "Invalid admin password")` unless the supplied password
equals the configured one exactly. -/
def verify_admin (env : Env) (password : String) : Except Err Unit :=
  if password ≠ adminPw env then
    .error (.http 401 "Invalid admin password")
  else
    .ok ()

/-- The `{k: d.get(k) for k in [...]}` projection: a stored field that is
missing is passed to the model constructor as an explicit `None`. -/
def projectField {α : Type} : Option α → RawField α
  | none => .null
  | some a => .val a

/-- Handler `GET /api/butcher` (`list_butcher_items`): rebuilds a `ButcherItem` from
each stored document via `ButcherItem(**{k: d.get(k) for k in [...]})`; a
validation failure on any document raises out of the handler (HTTP 500). -/
def list_butcher_items (st : Store) : Store × Except Err (List ButcherItem) :=
  (st,
    (st.butcheritem.mapM fun d =>
      ButcherItem.validate (projectField d.title) (projectField d.description)
        (projectField d.price_per_kg) (projectField d.available)
        (projectField d.image)).mapError
      fun _ => Err.http 500 "Internal Server Error")

/-- Handler `GET /api/grocery` (`list_grocery_items`), mirroring the butcher list. -/
def list_grocery_items (st : Store) : Store × Except Err (List GroceryItem) :=
  (st,
    (st.groceryitem.mapM fun d =>
      GroceryItem.validate (projectField d.title) (projectField d.description)
        (projectField d.price) (projectField d.available)
        (projectField d.image)).mapError
      fun _ => Err.http 500 "Internal Server Error")

/-- Handler `POST /api/admin/butcher` (`create_butcher_item`): FastAPI validates the
`item` and `auth` bodies (422 on failure), then `verify_admin(auth.password)`,
then persists and returns the new id. -/
def create_butcher_item (env : Env) (st : Store)
    (title description : RawField String) (price_per_kg : RawField ℚ)
    (available : RawField Bool) (image : RawField String)
    (auth_password : RawField String) : Store × Except Err String :=
  match ButcherItem.validate title description price_per_kg available image,
        requireField "password" auth_password with
  | .error e, _ => (st, .error (.validation e))
  | _, .error e => (st, .error (.validation e))
  | .ok item, .ok password =>
    match verify_admin env password with
    | .error e => (st, .error e)
    | .ok _ => ((createButcherDoc st item).1, .ok (createButcherDoc st item).2)

/-- Handler `POST /api/admin/grocery` (`create_grocery_item`). -/
def create_grocery_item (env : Env) (st : Store)
    (title description : RawField String) (price : RawField ℚ)
    (available : RawField Bool) (image : RawField String)
    (auth_password : RawField String) : Store × Except Err String :=
  match GroceryItem.validate title description price available image,
        requireField "password" auth_password with
  | .error e, _ => (st, .error (.validation e))
  | _, .error e => (st, .error (.validation e))
  | .ok item, .ok password =>
    match verify_admin env password with
    | .error e => (st, .error e)
    | .ok _ => ((createGroceryDoc st item).1, .ok (createGroceryDoc st item).2)

/-- Handler `POST /api/orders` (`create_order`): FastAPI validates the body against
the `Order` schema (422 on failure); the handler additionally rejects a
payment method outside the whitelist with `HTTPException(400)`, then persists
and returns the new id.  No admin gate. -/
def create_order (st : Store) (raw : RawOrder) : Store × Except Err String :=
  match Order.validate raw with
  | .error e => (st, .error (.validation e))
  | .ok o =>
    if o.payment_method ∈ paymentWhitelist then
      ((createOrderDoc st o).1, .ok (createOrderDoc st o).2)
    else
      (st, .error (.http 400 "Unsupported payment method"))

/-- Schema `class UpdateStatusRequest(BaseModel)` from `main.py` (already validated:
both fields are required strings). -/
structure UpdateStatusRequest where
  password : String
  status : String
deriving DecidableEq, Repr

/-- Handler `POST /api/admin/orders/{order_id}/status` (`update_order_status`):
verify the admin password; reject a status outside the four labels with 400;
500 if the store connection is absent; then
`update_one({"_id": ObjectId(order_id)}, {"$set": {"status": ..., "updated_at": None}})`.
A malformed id makes `ObjectId` raise, and the `HTTPException(404)` raised on
`matched_count == 0` is itself caught by the surrounding `except Exception`,
so both cases surface as `HTTPException(400, "Invalid order id")`.
Mongo enforces uniqueness of `_id` within a collection, so the per-document
conditional update below touches at most one document, exactly as
`update_one` does. -/
def update_order_status (env : Env) (st : Store) (order_id : String)
    (body : UpdateStatusRequest) : Store × Except Err Bool :=
  match verify_admin env body.password with
  | .error e => (st, .error e)
  | .ok _ =>
    if body.status ∈ validStatuses then
      if env.dbAvailable then
        if isValidObjectId order_id then
          let st' := { st with
            order := st.order.map fun d =>
              if d.id = order_id then setStatusDoc body.status d else d }
          if st.order.any fun d => d.id == order_id then
            (st', .ok true)
          else
            (st', .error (.http 400 "Invalid order id"))
        else
          (st, .error (.http 400 "Invalid order id"))
      else
        (st, .error (.http 500 "Database not available"))
    else
      (st, .error (.http 400 "Invalid status"))

/-- Erase the store-assigned id and any extra fields of a stored butcher
document, keeping only the five schema fields. -/
def stripButcherDoc (d : ButcherDoc) : ButcherDoc :=
  { d with id := "", extras := [] }

/-- Erase the store-assigned id and any extra fields of a stored grocery
document. -/
def stripGroceryDoc (d : GroceryDoc) : GroceryDoc :=
  { d with id := "", extras := [] }

/-- Erase ids and extra fields of every stored catalog document. -/
def stripStore (st : Store) : Store :=
  { st with butcheritem := st.butcheritem.map stripButcherDoc,
            groceryitem := st.groceryitem.map stripGroceryDoc }

/- ----------------------- sample data ----------------------- -/

/-- A stored order document, as `create_order` would persist it. -/
def sampleOrderDoc : OrderDoc :=
  ⟨mkObjectId 0, "Alice", "555", "1 Main St", "Cash on Delivery", "Pending",
    [], 10, .absent⟩

/-- A store holding the one sample order. -/
def sampleStore : Store := ⟨[], [], [sampleOrderDoc], 1⟩

/-- The sample store after a successful `setStatus` to `"Delivered"`. -/
def sampleUpdatedStore : Store :=
  ⟨[], [], [⟨mkObjectId 0, "Alice", "555", "1 Main St", "Cash on Delivery",
    "Delivered", [], 10, .nullMark⟩], 1⟩

/-- An order request body whose caller supplies status `"Delivered"`. -/
def sampleRawOrder : RawOrder :=
  ⟨.val "Alice", .val "555", .val "1 Main St", .val "Cash on Delivery",
    .val "Delivered", .val [], .val 10⟩

/-- A well-formed butcher document together with an extra stored field. -/
def sampleButcherDoc : ButcherDoc :=
  ⟨mkObjectId 3, some "Ribeye", none, some 20, some true, none, [("stock", "3")]⟩

/-- A well-formed grocery document. -/
def sampleGroceryDoc : GroceryDoc :=
  ⟨mkObjectId 4, some "Milk", none, some ((7 : ℚ)/2), some true, none, []⟩

/-- A store holding one document of each catalog kind. -/
def sampleCatalogStore : Store := ⟨[sampleButcherDoc], [sampleGroceryDoc], [], 5⟩

/-- A stored butcher document with the required `title` missing. -/
def badButcherDoc : ButcherDoc :=
  ⟨mkObjectId 9, none, none, some 5, some true, none, []⟩

/-- A catalog store in which one butcher document lacks its title. -/
def badCatalogStore : Store := ⟨[sampleButcherDoc, badButcherDoc], [], [], 10⟩

/- ----------------------- helper lemmas ----------------------- -/

theorem exceptBind_ok {ε α β : Type} {x : Except ε α} {f : α → Except ε β} {b : β}
    (h : (x >>= f) = .ok b) : ∃ a, x = .ok a ∧ f a = .ok b := by
  cases x with
  | error e => exact absurd h (by simp [Bind.bind, Except.bind])
  | ok a =>
    refine ⟨a, rfl, ?_⟩
    simpa [Bind.bind, Except.bind] using h

theorem requireField_ok {α : Type} {name : String} {f : RawField α} {a : α}
    (h : requireField name f = .ok a) : f = .val a := by
  cases f <;> simp_all [requireField]

theorem guard_ok {ε : Type} {c : Prop} [Decidable c] {e : ε} {u : Unit}
    (h : (if c then Except.ok () else Except.error e) = Except.ok u) : c := by
  by_cases hc : c
  · exact hc
  · simp [hc] at h

theorem optField_projectField {α : Type} (o : Option α) :
    optField (projectField o) = o := by
  cases o <;> rfl

theorem projectField_val {α : Type} {o : Option α} {a : α}
    (h : projectField o = .val a) : o = some a := by
  cases o <;> simp_all [projectField]

theorem availableField_ok {f : RawField Bool} {b : Bool}
    (h : availableField f = .ok b) :
    (f = .absent ∧ b = true) ∨ f = .val b := by
  cases f with
  | absent => cases h; exact .inl ⟨rfl, rfl⟩
  | null => cases h
  | val c => cases h; exact .inr rfl

theorem statusField_ok {f : RawField String} {s : String}
    (h : statusField f = .ok s) :
    s ∈ validStatuses ∧ (f = .absent → s = "Pending") ∧
      ∀ t, f = .val t → s = t := by
  cases f with
  | absent =>
    cases h
    exact ⟨by decide, fun _ => rfl, fun t ht => by cases ht⟩
  | null => cases h
  | val t =>
    have h' : (if t ∈ validStatuses then Except.ok t
        else Except.error "status: unexpected value") = Except.ok s := h
    by_cases hm : t ∈ validStatuses
    · rw [if_pos hm] at h'
      cases h'
      refine ⟨hm, ?_, ?_⟩
      · intro hc; cases hc
      · intro u hu; cases hu; rfl
    · rw [if_neg hm] at h'
      cases h'

theorem Order.validate_ok {r : RawOrder} {o : Order}
    (h : Order.validate r = .ok o) :
    (r.payment_method = .val o.payment_method ∧
      o.payment_method ∈ paymentWhitelist) ∧
    o.status ∈ validStatuses ∧
    (r.status = .absent → o.status = "Pending") ∧
    (∀ s, r.status = .val s → o.status = s) := by
  unfold Order.validate at h
  obtain ⟨cn, hcn, h⟩ := exceptBind_ok h
  obtain ⟨ph, hph, h⟩ := exceptBind_ok h
  obtain ⟨ad, had, h⟩ := exceptBind_ok h
  obtain ⟨pm, hpm, h⟩ := exceptBind_ok h
  obtain ⟨u, hu, h⟩ := exceptBind_ok h
  obtain ⟨stt, hst, h⟩ := exceptBind_ok h
  obtain ⟨rawItems, hri, h⟩ := exceptBind_ok h
  obtain ⟨its, hits, h⟩ := exceptBind_ok h
  obtain ⟨tot, htot, h⟩ := exceptBind_ok h
  obtain ⟨u2, hu2, h⟩ := exceptBind_ok h
  have hoeq : o = ⟨cn, ph, ad, pm, stt, its, tot⟩ := by
    cases h; rfl
  have hpmw : pm ∈ paymentWhitelist := guard_ok hu
  obtain ⟨hs1, hs2, hs3⟩ := statusField_ok hst
  subst hoeq
  exact ⟨⟨requireField_ok hpm, hpmw⟩, hs1, hs2, hs3⟩

theorem butcher_validate_proj_ok {d : ButcherDoc} {it : ButcherItem}
    (h : ButcherItem.validate (projectField d.title) (projectField d.description)
      (projectField d.price_per_kg) (projectField d.available)
      (projectField d.image) = .ok it) :
    some it.title = d.title ∧ it.description = d.description ∧
    some it.price_per_kg = d.price_per_kg ∧ some it.available = d.available ∧
    it.image = d.image := by
  unfold ButcherItem.validate at h
  obtain ⟨t, ht, h⟩ := exceptBind_ok h
  obtain ⟨p, hp, h⟩ := exceptBind_ok h
  obtain ⟨u, hu, h⟩ := exceptBind_ok h
  obtain ⟨a, ha, h⟩ := exceptBind_ok h
  have hiteq : it = ⟨t, optField (projectField d.description), p, a,
      optField (projectField d.image)⟩ := by
    cases h; rfl
  subst hiteq
  have ht' := projectField_val (requireField_ok ht)
  have hp' := projectField_val (requireField_ok hp)
  have ha' : d.available = some a := by
    rcases availableField_ok ha with ⟨habs, _⟩ | hval
    · cases hd : d.available <;> rw [hd] at habs <;> simp [projectField] at habs
    · exact projectField_val hval
  exact ⟨ht'.symm, optField_projectField _, hp'.symm, ha'.symm,
    optField_projectField _⟩

theorem grocery_validate_proj_ok {d : GroceryDoc} {it : GroceryItem}
    (h : GroceryItem.validate (projectField d.title) (projectField d.description)
      (projectField d.price) (projectField d.available)
      (projectField d.image) = .ok it) :
    some it.title = d.title ∧ it.description = d.description ∧
    some it.price = d.price ∧ some it.available = d.available ∧
    it.image = d.image := by
  unfold GroceryItem.validate at h
  obtain ⟨t, ht, h⟩ := exceptBind_ok h
  obtain ⟨p, hp, h⟩ := exceptBind_ok h
  obtain ⟨u, hu, h⟩ := exceptBind_ok h
  obtain ⟨a, ha, h⟩ := exceptBind_ok h
  have hiteq : it = ⟨t, optField (projectField d.description), p, a,
      optField (projectField d.image)⟩ := by
    cases h; rfl
  subst hiteq
  have ht' := projectField_val (requireField_ok ht)
  have hp' := projectField_val (requireField_ok hp)
  have ha' : d.available = some a := by
    rcases availableField_ok ha with ⟨habs, _⟩ | hval
    · cases hd : d.available <;> rw [hd] at habs <;> simp [projectField] at habs
    · exact projectField_val hval
  exact ⟨ht'.symm, optField_projectField _, hp'.symm, ha'.symm,
    optField_projectField _⟩

theorem mapM_ok_spec {α β : Type} (f : α → Except String β) :
    ∀ (l : List α) (r : List β), l.mapM f = .ok r →
      r.length = l.length ∧
      ∀ i (h1 : i < r.length) (h2 : i < l.length),
        f (l.get ⟨i, h2⟩) = .ok (r.get ⟨i, h1⟩) := by
  intro l
  induction l with
  | nil =>
    intro r h
    rw [List.mapM_nil] at h
    cases h
    exact ⟨rfl, fun i h1 h2 => absurd h1 (by simp)⟩
  | cons a l ih =>
    intro r h
    rw [List.mapM_cons] at h
    obtain ⟨b, hb, h⟩ := exceptBind_ok h
    obtain ⟨bs, hbs, h⟩ := exceptBind_ok h
    have hr : r = b :: bs := by cases h; rfl
    subst hr
    obtain ⟨hlen, hget⟩ := ih bs hbs
    refine ⟨by simp [hlen], ?_⟩
    intro i h1 h2
    cases i with
    | zero => simpa [List.get_cons_zero] using hb
    | succ j =>
      have h1' : j < bs.length := by simpa using h1
      have h2' : j < l.length := by simpa using h2
      simpa [List.get_cons_succ] using hget j h1' h2'

theorem exceptBind_ok_left {ε α β : Type} {a : α} {f : α → Except ε β} :
    (Except.ok a >>= f) = f a := rfl

theorem exceptBind_error_left {ε α β : Type} {e : ε} {f : α → Except ε β} :
    ((Except.error e : Except ε α) >>= f) = .error e := rfl

theorem mapM_error_of_elem {α β : Type} (f : α → Except String β) :
    ∀ (l : List α) (a : α), a ∈ l → (∃ e0, f a = .error e0) →
      ∃ e, l.mapM f = .error e := by
  intro l
  induction l with
  | nil => intro a ha _; cases ha
  | cons b l ih =>
    intro a ha hex
    obtain ⟨e0, he0⟩ := hex
    rw [List.mapM_cons]
    cases hb : f b with
    | error e => exact ⟨e, by rw [exceptBind_error_left]⟩
    | ok v =>
      rcases List.mem_cons.mp ha with heq | hmem
      · subst heq; rw [hb] at he0; cases he0
      · obtain ⟨e, he⟩ := ih a hmem ⟨e0, he0⟩
        exact ⟨e, by rw [exceptBind_ok_left, he, exceptBind_error_left]⟩

theorem mapM_map_eq {α β : Type} (f : α → Except String β) (g : α → α)
    (hg : ∀ a, f (g a) = f a) :
    ∀ l : List α, (l.map g).mapM f = l.mapM f := by
  intro l
  induction l with
  | nil => rfl
  | cons a l ih => rw [List.map_cons, List.mapM_cons, List.mapM_cons, hg, ih]

theorem map_setStatus_id {st : Store} {order_id : String} {s : String}
    (hmiss : ∀ d ∈ st.order, d.id ≠ order_id) :
    (st.order.map fun d => if d.id = order_id then setStatusDoc s d else d)
      = st.order := by
  have h : ∀ d ∈ st.order, (if d.id = order_id then setStatusDoc s d else d) = d :=
    fun d hd => if_neg (hmiss d hd)
  rw [List.map_congr_left h, List.map_id']

/- ----------------------- claims ----------------------- -/

/-- C9: `verify_admin` succeeds exactly when the supplied secret equals the
configured `ADMIN_PASSWORD` (falling back to `"admin123"` when unset); on any
mismatch it fails with the 401 authorization error. -/
theorem C9_verify_admin_exact_match (env : Env) (s : String) :
    (verify_admin env s = .ok () ↔ s = env.ADMIN_PASSWORD.getD "admin123") ∧
    (s ≠ env.ADMIN_PASSWORD.getD "admin123" →
      verify_admin env s = .error (.http 401 "Invalid admin password")) := by
  by_cases hc : s = env.ADMIN_PASSWORD.getD "admin123" <;>
    simp [verify_admin, adminPw, hc]

/-- Witness for C9 at a configured secret and a mismatched supplied string. -/
theorem C9_witness :
    verify_admin ⟨some "hunter2", true⟩ "admin123" =
      .error (.http 401 "Invalid admin password") :=
  (C9_verify_admin_exact_match ⟨some "hunter2", true⟩ "admin123").2 (by decide)

/-- C3: a `setStatus` request whose admin secret differs from the configured
one fails with the 401 authorization error and leaves the whole store — in
particular every order's `status` and `updated_at` — unchanged, whatever the
order id and requested status are. -/
theorem C3_wrong_secret_no_mutation (env : Env) (st : Store) (order_id : String)
    (body : UpdateStatusRequest) (h : body.password ≠ adminPw env) :
    update_order_status env st order_id body =
      (st, .error (.http 401 "Invalid admin password")) := by
  simp [update_order_status, verify_admin, h]

/-- Witness for C3: wrong secret against a store holding one order. -/
theorem C3_witness :
    update_order_status ⟨none, true⟩
      ⟨[], [], [⟨mkObjectId 0, "Alice", "555", "1 Main St", "Cash on Delivery",
        "Pending", [], 10, .absent⟩], 1⟩
      (mkObjectId 0) ⟨"wrong", "Delivered"⟩ =
    (⟨[], [], [⟨mkObjectId 0, "Alice", "555", "1 Main St", "Cash on Delivery",
        "Pending", [], 10, .absent⟩], 1⟩,
      .error (.http 401 "Invalid admin password")) :=
  C3_wrong_secret_no_mutation _ _ _ _ (by decide)

/-- C4: a `setStatus` request with the correct secret but a status outside
the four valid labels fails with the 400 validation error and leaves the
store unchanged. -/
theorem C4_invalid_status_no_mutation (env : Env) (st : Store)
    (order_id : String) (body : UpdateStatusRequest)
    (hpw : body.password = adminPw env) (hs : body.status ∉ validStatuses) :
    update_order_status env st order_id body =
      (st, .error (.http 400 "Invalid status")) := by
  simp [update_order_status, verify_admin, hpw, hs]

/-- Witness for C4: correct secret, status `"Shipped"`. -/
theorem C4_witness :
    update_order_status ⟨none, true⟩
      ⟨[], [], [⟨mkObjectId 0, "Alice", "555", "1 Main St", "Cash on Delivery",
        "Pending", [], 10, .absent⟩], 1⟩
      (mkObjectId 0) ⟨"admin123", "Shipped"⟩ =
    (⟨[], [], [⟨mkObjectId 0, "Alice", "555", "1 Main St", "Cash on Delivery",
        "Pending", [], 10, .absent⟩], 1⟩,
      .error (.http 400 "Invalid status")) :=
  C4_invalid_status_no_mutation _ _ _ _ (by decide) (by decide)

/-- C2: an otherwise-valid `setStatus` request whose order id matches no
stored order — whether the id is malformed or simply absent — fails with the
invalid-reference error (the handler's 404 is swallowed by its
`except Exception` into a 400 `"Invalid order id"`) and mutates nothing. -/
theorem C2_unknown_id_no_mutation (env : Env) (st : Store) (order_id : String)
    (body : UpdateStatusRequest) (hpw : body.password = adminPw env)
    (hs : body.status ∈ validStatuses) (hdb : env.dbAvailable = true)
    (hmiss : ∀ d ∈ st.order, d.id ≠ order_id) :
    update_order_status env st order_id body =
      (st, .error (.http 400 "Invalid order id")) := by
  have hmap := map_setStatus_id (s := body.status) hmiss
  have hany : (st.order.any fun d => d.id == order_id) = false := by
    rw [List.any_eq_false]
    intro d hd
    simp [hmiss d hd]
  by_cases hv : isValidObjectId order_id
  · simp [update_order_status, verify_admin, hpw, hs, hdb, hv, hany, hmap]
  · simp [update_order_status, verify_admin, hpw, hs, hdb, hv]

/-- Witness for C2: a well-formed id that no stored order carries. -/
theorem C2_witness :
    update_order_status ⟨none, true⟩
      ⟨[], [], [⟨mkObjectId 0, "Alice", "555", "1 Main St", "Cash on Delivery",
        "Pending", [], 10, .absent⟩], 1⟩
      (mkObjectId 7) ⟨"admin123", "Confirmed"⟩ =
    (⟨[], [], [⟨mkObjectId 0, "Alice", "555", "1 Main St", "Cash on Delivery",
        "Pending", [], 10, .absent⟩], 1⟩,
      .error (.http 400 "Invalid order id")) :=
  C2_unknown_id_no_mutation _ _ _ _ (by decide) (by decide) (by decide)
    (by intro d hd; simp at hd; simp [hd]; decide)

/-- C8: a successful `setStatus` on a matching order overwrites exactly that
order's `status` with the requested label and its `updated_at` marker with
null (the reference behavior), changes no other field of any order, and has
no other side effect: the catalog collections, the id counter, the number of
orders and every non-matching order are untouched. -/
theorem C8_setStatus_overwrite_frame (env : Env) (st : Store)
    (order_id : String) (body : UpdateStatusRequest) (st' : Store) (r : Bool)
    (h : update_order_status env st order_id body = (st', .ok r)) :
    st'.butcheritem = st.butcheritem ∧ st'.groceryitem = st.groceryitem ∧
    st'.nextId = st.nextId ∧ (∃ d ∈ st.order, d.id = order_id) ∧
    st'.order.length = st.order.length ∧
    ∀ i (h1 : i < st'.order.length) (h2 : i < st.order.length),
      st'.order.get ⟨i, h1⟩ =
        if (st.order.get ⟨i, h2⟩).id = order_id then
          setStatusDoc body.status (st.order.get ⟨i, h2⟩)
        else st.order.get ⟨i, h2⟩ := by
  by_cases hpw : body.password = adminPw env
  · by_cases hs : body.status ∈ validStatuses
    · by_cases hdb : env.dbAvailable = true
      · by_cases hv : isValidObjectId order_id = true
        · cases hany : (st.order.any fun d => d.id == order_id) with
          | false =>
            simp [update_order_status, verify_admin, hpw, hs, hdb, hv, hany] at h
          | true =>
            simp [update_order_status, verify_admin, hpw, hs, hdb, hv, hany] at h
            obtain ⟨h1, h2⟩ := h
            subst h1
            refine ⟨rfl, rfl, rfl, ?_, by simp, ?_⟩
            · obtain ⟨d, hd, hp⟩ := List.any_eq_true.mp hany
              exact ⟨d, hd, by simpa using hp⟩
            · intro i hi1 hi2
              rw [List.get_map]
        · simp [update_order_status, verify_admin, hpw, hs, hdb, hv] at h
      · simp [update_order_status, verify_admin, hpw, hs, hdb] at h
    · simp [update_order_status, verify_admin, hpw, hs] at h
  · simp [update_order_status, verify_admin, hpw] at h

/-- Witness for C8: `setStatus` to `"Delivered"` on the sample store yields
the sample updated store. -/
theorem C8_witness :
    sampleUpdatedStore.butcheritem = sampleStore.butcheritem ∧
    sampleUpdatedStore.nextId = sampleStore.nextId ∧
    sampleUpdatedStore.order.length = sampleStore.order.length := by
  obtain ⟨h1, h2, h3, h4, h5, h6⟩ :=
    C8_setStatus_overwrite_frame ⟨none, true⟩ sampleStore (mkObjectId 0)
      ⟨"admin123", "Delivered"⟩ sampleUpdatedStore true (by decide)
  exact ⟨h1, h3, h5⟩

theorem mapError_ok {ε ε' α : Type} {g : ε → ε'} {x : Except ε α} {a : α}
    (h : x.mapError g = .ok a) : x = .ok a := by
  cases x <;> simp_all [Except.mapError]

theorem list_butcher_items_snd (st : Store) :
    (list_butcher_items st).2 = (st.butcheritem.mapM fun d =>
      ButcherItem.validate (projectField d.title) (projectField d.description)
        (projectField d.price_per_kg) (projectField d.available)
        (projectField d.image)).mapError
      (fun _ => Err.http 500 "Internal Server Error") := rfl

theorem list_grocery_items_snd (st : Store) :
    (list_grocery_items st).2 = (st.groceryitem.mapM fun d =>
      GroceryItem.validate (projectField d.title) (projectField d.description)
        (projectField d.price) (projectField d.available)
        (projectField d.image)).mapError
      (fun _ => Err.http 500 "Internal Server Error") := rfl

theorem create_order_ok {st : Store} {raw : RawOrder} {st' : Store} {i : String}
    (h : create_order st raw = (st', .ok i)) :
    ∃ o : Order, Order.validate raw = .ok o ∧
      st' = (createOrderDoc st o).1 ∧ i = (createOrderDoc st o).2 := by
  unfold create_order at h
  split at h
  · simp at h
  · rename_i o heq
    split at h
    · simp at h
      exact ⟨o, heq, h.1.symm, h.2.symm⟩
    · simp at h

/-- C1 (amended): a successful order creation appends exactly one order
document; its status is one of the four valid labels, equals `"Pending"` when
the request body omitted the status field, and equals the caller-supplied
label when one was supplied. -/
theorem C1_created_status (st : Store) (raw : RawOrder) (st' : Store)
    (i : String) (h : create_order st raw = (st', .ok i)) :
    ∃ d : OrderDoc, st'.order = st.order ++ [d] ∧
      d.status ∈ validStatuses ∧
      (raw.status = .absent → d.status = "Pending") ∧
      (∀ s, raw.status = .val s → d.status = s) := by
  obtain ⟨o, hv, hst, hi⟩ := create_order_ok h
  obtain ⟨hpm, hsv, habs, hval⟩ := Order.validate_ok hv
  subst hst
  exact ⟨⟨mkObjectId st.nextId, o.customer_name, o.phone, o.address,
    o.payment_method, o.status, o.items, o.total, .absent⟩, rfl, hsv, habs, hval⟩

/-- Witness for the amended C1: creating `sampleRawOrder` (which supplies
status `"Delivered"`) appends a document carrying that status. -/
theorem C1_witness :
    ∃ d : OrderDoc,
      (⟨[], [], [⟨mkObjectId 0, "Alice", "555", "1 Main St",
        "Cash on Delivery", "Delivered", [], 10, .absent⟩], 1⟩ : Store).order =
        (⟨[], [], [], 0⟩ : Store).order ++ [d] ∧
      d.status ∈ validStatuses ∧
      (sampleRawOrder.status = .absent → d.status = "Pending") ∧
      (∀ s, sampleRawOrder.status = .val s → d.status = s) :=
  C1_created_status ⟨[], [], [], 0⟩ sampleRawOrder _ (mkObjectId 0) (by decide)

/-- C1 counterexample: the claim as stated is false — `create_order` accepts
a body supplying status `"Delivered"` and persists that status, not
`"Pending"`. -/
theorem C1_counterexample :
    (create_order ⟨[], [], [], 0⟩ sampleRawOrder).2 = .ok (mkObjectId 0) ∧
    ((create_order ⟨[], [], [], 0⟩ sampleRawOrder).1.order.map fun d =>
      d.status) = ["Delivered"] := by
  constructor <;> decide

/-- C5: an order-creation request whose payment_method is not one of the two
whitelisted strings — whether the field is absent, null, or another value —
fails with a client error (pydantic `Literal` validation; the handler's own
400 backs it up) and persists nothing: the store is returned unchanged. -/
theorem C5_payment_whitelist (st : Store) (raw : RawOrder)
    (h : ∀ s, raw.payment_method = .val s → s ∉ paymentWhitelist) :
    ∃ e, create_order st raw = (st, .error e) ∧ e.isClient = true := by
  cases hv : Order.validate raw with
  | error e =>
    refine ⟨.validation e, ?_, rfl⟩
    unfold create_order
    rw [hv]
  | ok o =>
    obtain ⟨⟨hpm, hw⟩, _⟩ := Order.validate_ok hv
    exact absurd hw (h o.payment_method hpm)

/-- Witness for C5: payment method `"Bitcoin"` is rejected, store unchanged. -/
theorem C5_witness :
    ∃ e, create_order ⟨[], [], [], 0⟩
        { sampleRawOrder with payment_method := .val "Bitcoin" } =
      ((⟨[], [], [], 0⟩ : Store), .error e) ∧ e.isClient = true :=
  C5_payment_whitelist _ _ (by intro s hs; cases hs; decide)

/-- C6 (amended): the catalog create operation rejects, with a validation
error and without persisting, a ButcherItem whose title field is missing
(absent or explicit null) — title is required — but it does not reject the
empty string (see the counterexample). -/
theorem C6_title_required (env : Env) (st : Store)
    (title description : RawField String) (price_per_kg : RawField ℚ)
    (available : RawField Bool) (image : RawField String)
    (auth_password : RawField String)
    (h : title = .absent ∨ title = .null) :
    ∃ e, create_butcher_item env st title description price_per_kg available
        image auth_password = (st, .error (.validation e)) := by
  have hval : ∃ e0, ButcherItem.validate title description price_per_kg
      available image = .error e0 := by
    rcases h with h | h <;> subst h <;> exact ⟨_, rfl⟩
  obtain ⟨e0, he0⟩ := hval
  refine ⟨e0, ?_⟩
  unfold create_butcher_item
  rw [he0]
  cases requireField "password" auth_password <;> rfl

/-- Witness for the amended C6: an absent title is rejected. -/
theorem C6_witness :
    ∃ e, create_butcher_item ⟨none, true⟩ ⟨[], [], [], 0⟩ .absent .absent
        (.val 5) .absent .absent (.val "admin123") =
      ((⟨[], [], [], 0⟩ : Store), .error (.validation e)) :=
  C6_title_required _ _ _ _ _ _ _ _ (.inl rfl)

/-- C6 counterexample: the claim as stated is false — an empty-string title
passes validation and, with the correct secret, the item is persisted. -/
theorem C6_counterexample :
    (create_butcher_item ⟨none, true⟩ ⟨[], [], [], 0⟩ (.val "") .absent
        (.val 5) .absent .absent (.val "admin123")).2 = .ok (mkObjectId 0) ∧
    ((create_butcher_item ⟨none, true⟩ ⟨[], [], [], 0⟩ (.val "") .absent
        (.val 5) .absent .absent (.val "admin123")).1.butcheritem.map fun d =>
      d.title) = [some ""] := by
  constructor <;> decide

/-- C7: when the public list endpoints succeed they return, per stored
document in order, a record of exactly the five schema fields with the stored
values — title, description, price_per_kg (butcher) / price (grocery),
available, image (the output record types have no other field) — and the
output is unchanged when the store-assigned ids and all extra stored fields
are erased: ids are omitted and unknown fields silently dropped. -/
theorem C7_public_projection (st : Store) :
    (∀ items, (list_butcher_items st).2 = .ok items →
      items.length = st.butcheritem.length ∧
      ∀ i (h1 : i < items.length) (h2 : i < st.butcheritem.length),
        some (items.get ⟨i, h1⟩).title = (st.butcheritem.get ⟨i, h2⟩).title ∧
        (items.get ⟨i, h1⟩).description = (st.butcheritem.get ⟨i, h2⟩).description ∧
        some (items.get ⟨i, h1⟩).price_per_kg = (st.butcheritem.get ⟨i, h2⟩).price_per_kg ∧
        some (items.get ⟨i, h1⟩).available = (st.butcheritem.get ⟨i, h2⟩).available ∧
        (items.get ⟨i, h1⟩).image = (st.butcheritem.get ⟨i, h2⟩).image) ∧
    (∀ items, (list_grocery_items st).2 = .ok items →
      items.length = st.groceryitem.length ∧
      ∀ i (h1 : i < items.length) (h2 : i < st.groceryitem.length),
        some (items.get ⟨i, h1⟩).title = (st.groceryitem.get ⟨i, h2⟩).title ∧
        (items.get ⟨i, h1⟩).description = (st.groceryitem.get ⟨i, h2⟩).description ∧
        some (items.get ⟨i, h1⟩).price = (st.groceryitem.get ⟨i, h2⟩).price ∧
        some (items.get ⟨i, h1⟩).available = (st.groceryitem.get ⟨i, h2⟩).available ∧
        (items.get ⟨i, h1⟩).image = (st.groceryitem.get ⟨i, h2⟩).image) ∧
    (list_butcher_items (stripStore st)).2 = (list_butcher_items st).2 ∧
    (list_grocery_items (stripStore st)).2 = (list_grocery_items st).2 := by
  refine ⟨?_, ?_, ?_, ?_⟩
  · intro items h
    rw [list_butcher_items_snd] at h
    have h' := mapError_ok h
    obtain ⟨hlen, hget⟩ := mapM_ok_spec _ st.butcheritem items h'
    exact ⟨hlen, fun i h1 h2 =>
      butcher_validate_proj_ok (hget i h1 h2)⟩
  · intro items h
    rw [list_grocery_items_snd] at h
    have h' := mapError_ok h
    obtain ⟨hlen, hget⟩ := mapM_ok_spec _ st.groceryitem items h'
    exact ⟨hlen, fun i h1 h2 =>
      grocery_validate_proj_ok (hget i h1 h2)⟩
  · rw [list_butcher_items_snd, list_butcher_items_snd]
    exact congrArg _ (mapM_map_eq (fun d : ButcherDoc =>
      ButcherItem.validate (projectField d.title) (projectField d.description)
        (projectField d.price_per_kg) (projectField d.available)
        (projectField d.image)) stripButcherDoc (fun d => rfl) st.butcheritem)
  · rw [list_grocery_items_snd, list_grocery_items_snd]
    exact congrArg _ (mapM_map_eq (fun d : GroceryDoc =>
      GroceryItem.validate (projectField d.title) (projectField d.description)
        (projectField d.price) (projectField d.available)
        (projectField d.image)) stripGroceryDoc (fun d => rfl) st.groceryitem)

/-- Witness for C7 on the sample catalog store: the butcher listing is the
one projected record, and erasing ids and extras does not change the output. -/
theorem C7_witness :
    ((([⟨"Ribeye", none, 20, true, none⟩] : List ButcherItem)).length =
      sampleCatalogStore.butcheritem.length) ∧
    (list_butcher_items (stripStore sampleCatalogStore)).2 =
      (list_butcher_items sampleCatalogStore).2 := by
  obtain ⟨hb, hg, hsb, hsg⟩ := C7_public_projection sampleCatalogStore
  exact ⟨(hb [⟨"Ribeye", none, 20, true, none⟩] (by decide)).1, hsb⟩

/-- C10: if any stored catalog document is missing a field its schema
requires (title, or the kind's price field, absent or null), the public list
endpoint fails for the whole request with the 500 error instead of skipping
the document or returning the others. -/
theorem C10_missing_required_field_fails (st : Store) :
    (∀ d ∈ st.butcheritem, (d.title = none ∨ d.price_per_kg = none) →
      (list_butcher_items st).2 = .error (.http 500 "Internal Server Error")) ∧
    (∀ d ∈ st.groceryitem, (d.title = none ∨ d.price = none) →
      (list_grocery_items st).2 = .error (.http 500 "Internal Server Error")) := by
  constructor
  · intro d hd hbad
    have hfd : ∃ e0, ButcherItem.validate (projectField d.title)
        (projectField d.description) (projectField d.price_per_kg)
        (projectField d.available) (projectField d.image) = .error e0 := by
      rcases hbad with hb | hb
      · rw [hb]; exact ⟨_, rfl⟩
      · cases hdt : d.title with
        | none => exact ⟨_, rfl⟩
        | some t => rw [hb]; exact ⟨_, rfl⟩
    obtain ⟨e, he⟩ := mapM_error_of_elem (fun d : ButcherDoc =>
      ButcherItem.validate (projectField d.title) (projectField d.description)
        (projectField d.price_per_kg) (projectField d.available)
        (projectField d.image)) st.butcheritem d hd hfd
    rw [list_butcher_items_snd, he]
    rfl
  · intro d hd hbad
    have hfd : ∃ e0, GroceryItem.validate (projectField d.title)
        (projectField d.description) (projectField d.price)
        (projectField d.available) (projectField d.image) = .error e0 := by
      rcases hbad with hb | hb
      · rw [hb]; exact ⟨_, rfl⟩
      · cases hdt : d.title with
        | none => exact ⟨_, rfl⟩
        | some t => rw [hb]; exact ⟨_, rfl⟩
    obtain ⟨e, he⟩ := mapM_error_of_elem (fun d : GroceryDoc =>
      GroceryItem.validate (projectField d.title) (projectField d.description)
        (projectField d.price) (projectField d.available)
        (projectField d.image)) st.groceryitem d hd hfd
    rw [list_grocery_items_snd, he]
    rfl

/-- Witness for C10: a store whose second butcher document lacks its title
makes the whole butcher listing fail. -/
theorem C10_witness :
    (list_butcher_items badCatalogStore).2 =
      .error (.http 500 "Internal Server Error") :=
  (C10_missing_required_field_fails badCatalogStore).1 badButcherDoc
    (by decide) (.inl rfl)

end Shop
